import Mathlib

/-!
Shallow embedding of the ai-chat-game-vertex frontend and of the
spec-described Trigger Policy, with theorems checking the natural-language
specification against the code.

Sources embedded:
- `src/frontend/types/index.ts` — the data model (Emotion, Scene, Role,
  ConversationRequest, ConversationResponse, Message, ChatState) and the
  MessageInput component's send handler.
- `src/unnamed/part_001` — ChatContext: `chatReducer`, `initialState`,
  `ChatProvider.sendMessage` (request construction).
- `src/frontend/lib/api.ts` — `sendConversationMessage`.
- `src/frontend/components/CharacterImageDisplay.tsx` — both variants of the
  component, embedded as pure render functions.
- The Trigger Policy (backend) is not present as code in the repository; it is
  modelled from the spec (§4.2) and the category table of the in-repo design
  document.
-/

namespace AiChatGame

/-- Emotion states for character expressions, from `src/frontend/types/index.ts`. -/
inductive Emotion
  | happy
  | sad
  | neutral
  | surprised
  | thoughtful
deriving DecidableEq, Repr

/-- Scene backgrounds, from `src/frontend/types/index.ts`. -/
inductive Scene
  | indoor
  | outdoor
  | cafe
  | park
deriving DecidableEq, Repr

/-- Message sender role, from `src/frontend/types/index.ts`. -/
inductive Role
  | user
  | agent
deriving DecidableEq, Repr

/-- Request payload for sending a message (`ConversationRequest` in
`src/frontend/types/index.ts`). The optional `session_id?` field is an
`Option String`. -/
structure ConversationRequest where
  user_id : String
  message : String
  session_id : Option String
deriving DecidableEq, Repr

/-- Response from the conversation endpoint (`ConversationResponse` in
`src/frontend/types/index.ts`). The optional `image_url?` field is an
`Option String`; `affinity_level` is a TypeScript `number` carrying an
integer. -/
structure ConversationResponse where
  session_id : String
  dialogue : String
  narration : String
  emotion : Emotion
  scene : Scene
  image_url : Option String
  affinity_level : Int
  timestamp : String
deriving DecidableEq, Repr

/-- A single message in the conversation log (`Message` in
`src/frontend/types/index.ts`); `narration?` is optional. -/
structure Message where
  role : Role
  dialogue : String
  narration : Option String
  timestamp : String
deriving DecidableEq, Repr

/-- Chat state managed by ChatContext (`ChatState` in
`src/frontend/types/index.ts`); `sessionId : string | null` is an
`Option String`. -/
structure ChatState where
  messages : List Message
  currentImageUrl : String
  isLoading : Bool
  isGeneratingImage : Bool
  affinityLevel : Int
  sessionId : Option String
deriving DecidableEq, Repr

/-- Action type of the chat reducer (`ChatAction` in `src/unnamed/part_001`). -/
inductive ChatAction
  | SEND_MESSAGE_START (userMessage : String)
  | SEND_MESSAGE_SUCCESS (response : ConversationResponse)
  | SEND_MESSAGE_ERROR
  | CLEAR_HISTORY
deriving DecidableEq, Repr

/-- `initialState` from `src/unnamed/part_001`. -/
def initialState : ChatState :=
  { messages := []
    currentImageUrl := ""
    isLoading := false
    isGeneratingImage := false
    affinityLevel := 0
    sessionId := none }

/-- `chatReducer` from `src/unnamed/part_001`. The reducer's one impure
expression, `new Date().toISOString()` in the SEND_MESSAGE_START branch, is
embedded as the explicit `now` argument (the wall-clock reading at the call).
`action.response.image_url ?? state.currentImageUrl` is the JavaScript
nullish-coalescing operator, i.e. `Option.getD`. -/
def chatReducer (now : String) (state : ChatState) (action : ChatAction) : ChatState :=
  match action with
  | .SEND_MESSAGE_START userMessage =>
      { state with
        isLoading := true
        isGeneratingImage := true
        messages := state.messages ++
          [{ role := .user, dialogue := userMessage, narration := none, timestamp := now }] }
  | .SEND_MESSAGE_SUCCESS response =>
      { state with
        isLoading := false
        isGeneratingImage := false
        messages := state.messages ++
          [{ role := .agent, dialogue := response.dialogue,
             narration := some response.narration, timestamp := response.timestamp }]
        currentImageUrl := response.image_url.getD state.currentImageUrl
        affinityLevel := response.affinity_level
        sessionId := some response.session_id }
  | .SEND_MESSAGE_ERROR =>
      { state with isLoading := false, isGeneratingImage := false }
  | .CLEAR_HISTORY => initialState

/-- Request construction in `ChatProvider.sendMessage`
(`src/unnamed/part_001`): the body passed to `sendConversationMessage` is
`{ user_id: 'demo-user', message, session_id: state.sessionId ?? undefined }`.
On `string | null`, `?? undefined` sends `null` to `undefined` and keeps a
string, i.e. it is the identity on `Option String`. -/
def sendMessageRequest (sessionId : Option String) (message : String) : ConversationRequest :=
  { user_id := "demo-user"
    message := message
    session_id := sessionId }

/-- The HTTP response observed by `sendConversationMessage`
(`src/frontend/lib/api.ts`): `ok` and `status` from `fetch`, and `body` the
payload that `response.json()` parses on the success path. -/
structure HttpResponse where
  ok : Bool
  status : Nat
  body : ConversationResponse
deriving DecidableEq, Repr

/-- `sendConversationMessage` from `src/frontend/lib/api.ts`, with the fetch
result passed explicitly: if `!response.ok` it throws
`` `API error: ${response.status}` ``, otherwise it returns the parsed
`ConversationResponse`. The thrown error is the `Except.error` case. -/
def sendConversationMessage (response : HttpResponse) : Except String ConversationResponse :=
  if response.ok then
    Except.ok response.body
  else
    Except.error ("API error: " ++ toString response.status)

/-- JavaScript `String.prototype.trim`: drop whitespace characters from both
ends of the string. Embedded as structurally recursive list operations so
that concrete inputs evaluate inside the kernel. -/
def jsTrim (s : String) : String :=
  String.mk (((s.data.dropWhile Char.isWhitespace).reverse.dropWhile Char.isWhitespace).reverse)

/-- `handleSend` of the MessageInput component (in
`src/frontend/types/index.ts`): trims the current input, returns without
calling `onSend` when the trimmed string is empty (falsy) or `isLoading`
holds, and otherwise calls `onSend(trimmed)`. The result is the argument
passed to `onSend`, or `none` when `onSend` is not invoked. -/
def handleSend (message : String) (isLoading : Bool) : Option String :=
  let trimmed := jsTrim message
  if trimmed = "" ∨ isLoading = true then none
  else some trimmed

/-- What the CharacterImageDisplay component puts inside its Card: the
Skeleton loader, an img element with its `src`, or the placeholder text. -/
inductive RenderedContent
  | skeleton
  | image (src : String)
  | placeholder
deriving DecidableEq, Repr

/-- `API_BASE_URL` default from `src/frontend/components/CharacterImageDisplay.tsx`
(the `NEXT_PUBLIC_API_URL` environment variable is absent in the embedding). -/
def API_BASE_URL : String := "http://localhost:8000"

/-- JavaScript `String.prototype.startsWith`, embedded as a structurally
recursive check on the character lists so that concrete inputs evaluate
inside the kernel. -/
def jsStartsWith (s pre : String) : Bool :=
  pre.data.isPrefixOf s.data

/-- `resolveImageUrl` from the first variant of
`src/frontend/components/CharacterImageDisplay.tsx`. -/
def resolveImageUrl (imagePath : String) : String :=
  if jsStartsWith imagePath "http" then imagePath else API_BASE_URL ++ imagePath

/-- First variant of `CharacterImageDisplay`
(`src/frontend/components/CharacterImageDisplay.tsx`, lines 18-33): renders
the Skeleton when `isGenerating && !imageUrl`, else an img with
`resolveImageUrl(imageUrl)` when `imageUrl` is truthy, else the placeholder. -/
def CharacterImageDisplayFirst (imageUrl : String) (isGenerating : Bool) : RenderedContent :=
  if isGenerating = true ∧ imageUrl = "" then .skeleton
  else if imageUrl ≠ "" then .image (resolveImageUrl imageUrl)
  else .placeholder

/-- Second variant of `CharacterImageDisplay`
(`src/frontend/components/CharacterImageDisplay.tsx`, lines 48-63): renders
the Skeleton whenever `isGenerating`, else an img with `imageUrl` when
truthy, else the placeholder. -/
def CharacterImageDisplaySecond (imageUrl : String) (isGenerating : Bool) : RenderedContent :=
  if isGenerating = true then .skeleton
  else if imageUrl ≠ "" then .image imageUrl
  else .placeholder

/-- Modelled from the spec: the raw emotion set of the backend Trigger
Policy, which is absent from `src/` (only design documents describe it). The
set is the eight-emotion enumeration of the in-repo design document
(`src/unnamed/part_002`). -/
inductive PolicyEmotion
  | happy
  | excited
  | neutral
  | thoughtful
  | sad
  | angry
  | surprised
  | embarrassed
deriving DecidableEq, Repr

/-- Modelled from the spec: the emotion categories
(positive / neutral / negative / expressive) used by the Trigger Policy. -/
inductive EmotionCategory
  | positive
  | neutral
  | negative
  | expressive
deriving DecidableEq, Repr

/-- Modelled from the spec: the scene set of the backend design document
(`src/unnamed/part_002`). -/
inductive PolicyScene
  | indoor
  | outdoor
  | cafe
  | park
  | school
  | home
deriving DecidableEq, Repr

/-- Modelled from the spec: the emotion-category classification, absent from
`src/` as code; the table is in the design document (`src/unnamed/part_002`):
positive = happy, excited; neutral = neutral, thoughtful; negative = sad,
angry; expressive = surprised, embarrassed. -/
def category : PolicyEmotion → EmotionCategory
  | .happy => .positive
  | .excited => .positive
  | .neutral => .neutral
  | .thoughtful => .neutral
  | .sad => .negative
  | .angry => .negative
  | .surprised => .expressive
  | .embarrassed => .expressive

/-- Modelled from the spec: the image-regeneration affinity threshold
(default 10, §4.2). -/
def AFFINITY_IMAGE_THRESHOLD : Int := 10

/-- Modelled from the spec: the memory-write affinity threshold
(default 10, §4.2). -/
def AFFINITY_MEMORY_THRESHOLD : Int := 10

/-- Modelled from the spec: the per-turn state seen by the Trigger Policy
(previous or current emotion, scene, affinity — §4.2). -/
structure TurnSnapshot where
  emotion : PolicyEmotion
  scene : PolicyScene
  affinity : Int
deriving DecidableEq, Repr

/-- Modelled from the spec: the Trigger Policy's result record
`{ regenerateImage, writeMemory }` (§4.2). -/
structure TriggerDecision where
  regenerateImage : Bool
  writeMemory : Bool
deriving DecidableEq, Repr

/-- Modelled from the spec: the Trigger Policy `evaluate(prev, curr)` of
§4.2, absent from `src/` as code. `regenerateImage` is true iff the emotion
category changed, or the scene changed, or the absolute affinity delta
reaches `AFFINITY_IMAGE_THRESHOLD`. `writeMemory` is true iff the absolute
affinity delta reaches `AFFINITY_MEMORY_THRESHOLD` or the model's own
important-event flag (an input read from the structured model output) is
asserted. -/
def evaluate (prev curr : TurnSnapshot) (isImportantEvent : Bool) : TriggerDecision :=
  { regenerateImage :=
      decide (category curr.emotion ≠ category prev.emotion) ||
      decide (curr.scene ≠ prev.scene) ||
      decide (AFFINITY_IMAGE_THRESHOLD ≤ |curr.affinity - prev.affinity|)
    writeMemory :=
      decide (AFFINITY_MEMORY_THRESHOLD ≤ |curr.affinity - prev.affinity|) ||
      isImportantEvent }

/-- A sample successful response, matching the mock of
`src/frontend/__tests__/contexts/chatReducer.test.ts`; used by concrete
witnesses below. -/
def sampleResponse : ConversationResponse :=
  { session_id := "session-abc"
    dialogue := "Hi there!"
    narration := "She smiled warmly."
    emotion := .happy
    scene := .cafe
    image_url := some "/images/happy_cafe.png"
    affinity_level := 15
    timestamp := "2026-02-23T10:00:00Z" }

/-- Claim C1: for every chat state and SEND_MESSAGE_SUCCESS action, if the
response carries no `image_url` then the resulting `currentImageUrl` equals
the previous state's `currentImageUrl`, and if it carries one then the
resulting `currentImageUrl` equals that `image_url`. -/
theorem sendMessageSuccess_currentImageUrl (now : String) (state : ChatState)
    (response : ConversationResponse) :
    (response.image_url = none →
      (chatReducer now state (.SEND_MESSAGE_SUCCESS response)).currentImageUrl =
        state.currentImageUrl) ∧
    (∀ url, response.image_url = some url →
      (chatReducer now state (.SEND_MESSAGE_SUCCESS response)).currentImageUrl = url) := by
  constructor
  · intro h
    simp [chatReducer, h]
  · intro url h
    simp [chatReducer, h]

/-- Concrete witness for C1: with no `image_url` the previous reference is
kept; with one, it is taken. -/
theorem sendMessageSuccess_currentImageUrl_witness :
    (chatReducer "t" { initialState with currentImageUrl := "/images/prev.png" }
      (.SEND_MESSAGE_SUCCESS { sampleResponse with image_url := none })).currentImageUrl =
        "/images/prev.png" ∧
    (chatReducer "t" initialState
      (.SEND_MESSAGE_SUCCESS sampleResponse)).currentImageUrl = "/images/happy_cafe.png" :=
  ⟨(sendMessageSuccess_currentImageUrl "t"
      { initialState with currentImageUrl := "/images/prev.png" }
      { sampleResponse with image_url := none }).1 rfl,
   (sendMessageSuccess_currentImageUrl "t" initialState sampleResponse).2
      "/images/happy_cafe.png" rfl⟩

/-- Claim C2: `evaluate(prev, curr)` returns `regenerateImage = true` iff the
emotion category changed, or the scene changed, or the absolute affinity
delta is at least `AFFINITY_IMAGE_THRESHOLD` (10). The Trigger Policy is
modelled from the spec, the backend code being absent from the repository
snapshot. -/
theorem evaluate_regenerateImage_iff (prev curr : TurnSnapshot) (isImportantEvent : Bool) :
    (evaluate prev curr isImportantEvent).regenerateImage = true ↔
      (category curr.emotion ≠ category prev.emotion ∨ curr.scene ≠ prev.scene ∨
        AFFINITY_IMAGE_THRESHOLD ≤ |curr.affinity - prev.affinity|) := by
  simp [evaluate, or_assoc]

/-- Spec §8 Scenario A: neutral→happy changes the category, so the image is
regenerated but no memory is written. -/
example :
    evaluate ⟨.neutral, .indoor, 20⟩ ⟨.happy, .indoor, 25⟩ false =
      { regenerateImage := true, writeMemory := false } := by
  decide

/-- Spec §8 Scenario B: happy→excited stays in the positive category, same
scene, delta 2: nothing fires. -/
example :
    evaluate ⟨.happy, .cafe, 30⟩ ⟨.excited, .cafe, 32⟩ false =
      { regenerateImage := false, writeMemory := false } := by
  decide

/-- Spec §8 Scenario C: delta 12 with category and scene unchanged fires both
thresholds. -/
example :
    evaluate ⟨.happy, .cafe, 40⟩ ⟨.happy, .cafe, 52⟩ false =
      { regenerateImage := true, writeMemory := true } := by
  decide

/-- Claim C3: a message whose trimmed form is empty is never sent; a message
whose trimmed form is non-empty is sent as its trimmed form when `isLoading`
is false. -/
theorem handleSend_spec (message : String) (isLoading : Bool) :
    (jsTrim message = "" → handleSend message isLoading = none) ∧
    (jsTrim message ≠ "" → isLoading = false →
      handleSend message isLoading = some (jsTrim message)) := by
  constructor
  · intro h
    simp [handleSend, h]
  · intro h hl
    simp [handleSend, h, hl]

/-- Concrete witness for C3: a whitespace-only input is rejected and a
padded input is sent trimmed. -/
theorem handleSend_spec_witness :
    handleSend "   " false = none ∧ handleSend "  hello  " false = some "hello" :=
  ⟨(handleSend_spec "   " false).1 (by decide),
   ((handleSend_spec "  hello  " false).2 (by decide) rfl).trans (by decide)⟩

/-- Counterexample to claim C4: the chat reducer does not clamp the affinity
write — a response carrying `affinity_level = 150` persists in state as 150,
outside [0, 100]. -/
theorem affinity_not_clamped_at_150 :
    (chatReducer "t" initialState
      (.SEND_MESSAGE_SUCCESS { sampleResponse with affinity_level := 150 })).affinityLevel
        = 150 ∧
    ¬ ((chatReducer "t" initialState
      (.SEND_MESSAGE_SUCCESS { sampleResponse with affinity_level := 150 })).affinityLevel
        ≤ 100) := by
  constructor
  · rfl
  · decide

/-- Claim C4 as amended: the chat reducer stores the response's
`affinity_level` verbatim, without clamping — out-of-range values persist
unchanged. -/
theorem sendMessageSuccess_affinity_verbatim (now : String) (state : ChatState)
    (response : ConversationResponse) :
    (chatReducer now state (.SEND_MESSAGE_SUCCESS response)).affinityLevel =
      response.affinity_level := rfl

/-- Claim C5: SEND_MESSAGE_SUCCESS sets `affinityLevel` to the response's
`affinity_level`, `sessionId` to the response's `session_id`, and appends
exactly one agent message carrying the response's dialogue, narration and
timestamp. -/
theorem sendMessageSuccess_state_update (now : String) (state : ChatState)
    (response : ConversationResponse) :
    (chatReducer now state (.SEND_MESSAGE_SUCCESS response)).affinityLevel =
        response.affinity_level ∧
    (chatReducer now state (.SEND_MESSAGE_SUCCESS response)).sessionId =
        some response.session_id ∧
    (chatReducer now state (.SEND_MESSAGE_SUCCESS response)).messages =
        state.messages ++
          [{ role := .agent, dialogue := response.dialogue,
             narration := some response.narration, timestamp := response.timestamp }] := by
  refine ⟨rfl, rfl, rfl⟩

/-- Claim C6: the outbound request's `session_id` is absent exactly when the
stored `sessionId` is null, otherwise it is the stored identifier; and a
successful response stores its `session_id` for the next turn. -/
theorem sendMessage_sessionId (sessionId : Option String) (message : String)
    (now : String) (state : ChatState) (response : ConversationResponse) :
    ((sendMessageRequest sessionId message).session_id = none ↔ sessionId = none) ∧
    (∀ sid, sessionId = some sid →
      (sendMessageRequest sessionId message).session_id = some sid) ∧
    (chatReducer now state (.SEND_MESSAGE_SUCCESS response)).sessionId =
      some response.session_id :=
  ⟨Iff.rfl, fun _ h => h, rfl⟩

/-- Concrete witness for C6: a stored identifier is reused, an absent one is
sent absent. -/
theorem sendMessage_sessionId_witness :
    (sendMessageRequest (some "session-xyz") "Hello").session_id = some "session-xyz" ∧
    (sendMessageRequest none "Hello").session_id = none :=
  ⟨(sendMessage_sessionId (some "session-xyz") "Hello" "t" initialState sampleResponse).2.1
      "session-xyz" rfl,
   (sendMessage_sessionId none "Hello" "t" initialState sampleResponse).1.mpr rfl⟩

/-- Claim C7: `sendConversationMessage` throws exactly when the HTTP response
is not ok, and returns the parsed `ConversationResponse` on an ok response. -/
theorem sendConversationMessage_spec (response : HttpResponse) :
    ((∃ e, sendConversationMessage response = .error e) ↔ response.ok = false) ∧
    (response.ok = true → sendConversationMessage response = .ok response.body) := by
  cases hok : response.ok with
  | true => simp [sendConversationMessage, hok]
  | false => simp [sendConversationMessage, hok]

/-- Concrete witness for C7: a 200 response returns the body, a 503 response
throws. -/
theorem sendConversationMessage_spec_witness :
    sendConversationMessage { ok := true, status := 200, body := sampleResponse } =
        .ok sampleResponse ∧
    (∃ e, sendConversationMessage { ok := false, status := 503, body := sampleResponse } =
        .error e) :=
  ⟨(sendConversationMessage_spec { ok := true, status := 200, body := sampleResponse }).2 rfl,
   (sendConversationMessage_spec { ok := false, status := 503, body := sampleResponse }).1.mpr
      rfl⟩

/-- Counterexample to claim C8: `chatReducer` is not deterministic in
(state, action) alone — the SEND_MESSAGE_START branch reads the wall clock
(`new Date().toISOString()`, the explicit `now` argument of the embedding),
so two calls with equal state and action but different clock readings return
different states. -/
theorem chatReducer_not_clock_independent :
    chatReducer "2026-02-23T10:00:00Z" initialState (.SEND_MESSAGE_START "Hello") ≠
      chatReducer "2026-02-23T10:00:01Z" initialState (.SEND_MESSAGE_START "Hello") := by
  decide

/-- Claim C8 as amended: `chatReducer` never mutates its input and is
deterministic given the wall-clock reading; for every action other than
SEND_MESSAGE_START the result does not depend on the clock at all. -/
theorem chatReducer_deterministic_given_clock (t1 t2 : String) (state : ChatState)
    (action : ChatAction) (h : ∀ m, action ≠ .SEND_MESSAGE_START m) :
    chatReducer t1 state action = chatReducer t2 state action := by
  cases action with
  | SEND_MESSAGE_START m => exact absurd rfl (h m)
  | SEND_MESSAGE_SUCCESS response => rfl
  | SEND_MESSAGE_ERROR => rfl
  | CLEAR_HISTORY => rfl

/-- Concrete witness for C8 (amended): the error action yields the same state
under two different clock readings. -/
theorem chatReducer_deterministic_given_clock_witness :
    chatReducer "2026-02-23T10:00:00Z" initialState .SEND_MESSAGE_ERROR =
      chatReducer "2026-02-23T10:00:01Z" initialState .SEND_MESSAGE_ERROR :=
  chatReducer_deterministic_given_clock "2026-02-23T10:00:00Z" "2026-02-23T10:00:01Z"
    initialState .SEND_MESSAGE_ERROR (fun _ h => ChatAction.noConfusion h)

/-- Claim C9: SEND_MESSAGE_ERROR sets `isLoading` and `isGeneratingImage` to
false and leaves the messages, image reference, affinity and session
identifier unchanged. -/
theorem sendMessageError_frame (now : String) (state : ChatState) :
    (chatReducer now state .SEND_MESSAGE_ERROR).isLoading = false ∧
    (chatReducer now state .SEND_MESSAGE_ERROR).isGeneratingImage = false ∧
    (chatReducer now state .SEND_MESSAGE_ERROR).messages = state.messages ∧
    (chatReducer now state .SEND_MESSAGE_ERROR).currentImageUrl = state.currentImageUrl ∧
    (chatReducer now state .SEND_MESSAGE_ERROR).affinityLevel = state.affinityLevel ∧
    (chatReducer now state .SEND_MESSAGE_ERROR).sessionId = state.sessionId :=
  ⟨rfl, rfl, rfl, rfl, rfl, rfl⟩

/-- Claim C10, the failing input of the repository's own test
(`src/unnamed/part_000`, "should not show image when generating"): with
`isGenerating = true` and `imageUrl = "/images/test.png"`, the first variant
of CharacterImageDisplay renders an img element instead of the skeleton,
while the second variant renders the skeleton as the test and the claim
require. -/
theorem characterImageDisplay_generating_divergence :
    CharacterImageDisplayFirst "/images/test.png" true =
        .image "http://localhost:8000/images/test.png" ∧
    CharacterImageDisplaySecond "/images/test.png" true = .skeleton := by
  constructor
  · decide
  · decide

end AiChatGame
